import Mathlib

/-!
Verification of the credit ledger and reservation engine of this repository
(`convex/sessions.ts`) and of the streaming settlement guard of the chat
route.  Credits, deltas and USD costs are JavaScript numbers in the source;
they are modelled as rationals (`ℚ`), timestamps as `Nat` milliseconds.
The document store is modelled as one session record plus an append-only
list of ledger entries; each Convex mutation handler becomes a pure
function from the store (plus its arguments and the current time) to a
result value and an updated store.
-/

namespace Vibible

/-- Default daily spending limit per session in USD (`DEFAULT_DAILY_SPEND_LIMIT_USD`). -/
def DEFAULT_DAILY_SPEND_LIMIT_USD : ℚ := 5

/-- `resolveTier`: every non-admin tier is normalised to the paid tier. -/
def resolveTier (currentTier : String) : String :=
  if currentTier = "admin" then "admin" else "paid"

/-- `getUtcDayStart`: start of the current UTC day (midnight) of a
millisecond timestamp, as in `date.setUTCHours(0,0,0,0)`. -/
def getUtcDayStart (timestamp : Nat) : Nat :=
  timestamp / 86400000 * 86400000

/-- One session record (the account): the fields of the `sessions` table
read or written by the credit mutations. -/
structure Session where
  sid : String
  tier : String
  credits : ℚ
  dailySpendUsd : Option ℚ
  dailySpendLimitUsd : Option ℚ
  lastDayReset : Option Nat
  deriving Repr, DecidableEq

/-- One `creditLedger` row. -/
structure LedgerEntry where
  sid : String
  delta : ℚ
  reason : String
  modelId : Option String
  costUsd : Option ℚ
  generationId : Option String
  createdAt : Nat
  deriving Repr, DecidableEq

/-- The persistent store: the one account under consideration plus the
append-only credit ledger. -/
structure DB where
  session : Session
  ledger : List LedgerEntry
  deriving Repr, DecidableEq

/-- Result of `checkDailySpendLimit`.  `limit = none` stands for the
`Infinity` returned on the admin bypass branch. -/
structure SpendCheck where
  allowed : Bool
  currentSpend : ℚ
  limit : Option ℚ
  resetNeeded : Bool
  remaining : Option ℚ
  deriving Repr, DecidableEq

/-- `checkDailySpendLimit(session, costUsd)` evaluated at time `now`. -/
def checkDailySpendLimit (session : Session) (costUsd : ℚ) (now : Nat) : SpendCheck :=
  if session.tier = "admin" then
    { allowed := true, currentSpend := 0, limit := none,
      resetNeeded := false, remaining := none }
  else
    let todayStart := getUtcDayStart now
    let lastReset := session.lastDayReset.getD 0
    let resetNeeded : Bool := lastReset < todayStart
    let currentSpend := if resetNeeded then 0 else session.dailySpendUsd.getD 0
    let limit := session.dailySpendLimitUsd.getD DEFAULT_DAILY_SPEND_LIMIT_USD
    let newSpend := currentSpend + costUsd
    if limit < newSpend then
      { allowed := false, currentSpend := currentSpend, limit := some limit,
        resetNeeded := resetNeeded, remaining := some (max 0 (limit - currentSpend)) }
    else
      { allowed := true, currentSpend := currentSpend, limit := some limit,
        resetNeeded := resetNeeded, remaining := none }

/-- `validatePositiveAmount`: `true` iff the amount passes the guard
(`amount <= 0 || !Number.isFinite(amount)` throws; rationals are always
finite). -/
def validatePositiveAmount (amount : ℚ) : Bool :=
  0 < amount

/-- The `by_generationId` index query: ledger entries whose `generationId`
and `sid` both match, in insertion order. -/
def entriesFor (generationId sid : String) (ledger : List LedgerEntry) : List LedgerEntry :=
  ledger.filter (fun e => e.generationId == some generationId && e.sid == sid)

/-- The `netDelta` reduce shared by reserve and deduct: sum the deltas of
`generation`, `refund` and `reservation` entries, ignore other reasons. -/
def netDeltaOf (entries : List LedgerEntry) : ℚ :=
  entries.foldl
    (fun sum entry =>
      if entry.reason == "generation" || entry.reason == "refund" then sum + entry.delta
      else if entry.reason == "reservation" then sum + entry.delta
      else sum) 0

/-- `reduce((sum, e) => sum + Math.abs(e.delta), 0)`. -/
def sumAbsDelta (entries : List LedgerEntry) : ℚ :=
  entries.foldl (fun sum e => sum + |e.delta|) 0

/-- `reduce((sum, e) => sum + (e.costUsd ?? 0), 0)`. -/
def sumCostUsd (entries : List LedgerEntry) : ℚ :=
  entries.foldl (fun sum e => sum + e.costUsd.getD 0) 0

/-- Result of `addCreditsInternal` (throws are modelled as `Except.error`). -/
abbrev AddResult := Except String (ℚ × DB)

/-- `addCreditsInternal` (the `grant` operation). -/
def addCreditsInternal (db : DB) (sid : String) (amount : ℚ) (reason : String)
    (now : Nat) : AddResult :=
  if ¬ validatePositiveAmount amount then
    .error "Amount must be a positive number"
  else if sid ≠ db.session.sid then
    .error "Session not found"
  else
    let session := db.session
    let newCredits := session.credits + amount
    let session' := { session with credits := newCredits, tier := resolveTier session.tier }
    let entry : LedgerEntry :=
      { sid := sid, delta := amount, reason := reason, modelId := none,
        costUsd := none, generationId := none, createdAt := now }
    .ok (newCredits, { session := session', ledger := db.ledger ++ [entry] })

/-- The return shapes of `reserveCreditsInternal`. -/
inductive ReserveResult where
  | sessionNotFound
  | dailyLimitExceeded (dailyLimit : Option ℚ) (dailySpent : ℚ) (remaining : Option ℚ)
  | alreadyReserved (newBalance : ℚ)
  | insufficientCredits (required available : ℚ)
  | ok (newBalance : ℚ)
  deriving Repr, DecidableEq

/-- `reserveCreditsInternal` evaluated at time `now`. -/
def reserveCreditsInternal (db : DB) (sid : String) (amount : ℚ)
    (modelId generationId : String) (costUsd : Option ℚ) (now : Nat) :
    ReserveResult × DB :=
  if sid ≠ db.session.sid then (.sessionNotFound, db)
  else
    let session := db.session
    let costUsdV := costUsd.getD 0
    let spendCheck := checkDailySpendLimit session costUsdV now
    if spendCheck.allowed = false then
      (.dailyLimitExceeded spendCheck.limit spendCheck.currentSpend spendCheck.remaining, db)
    else
      let ledgerEntries := entriesFor generationId sid db.ledger
      let netDelta := netDeltaOf ledgerEntries
      if netDelta < 0 then
        (.alreadyReserved session.credits, db)
      else
        let pendingReservations :=
          sumAbsDelta (ledgerEntries.filter (fun e => e.reason == "reservation"))
        let availableCredits := session.credits - pendingReservations
        if availableCredits < amount then
          (.insufficientCredits amount availableCredits, db)
        else
          let newCredits := session.credits - amount
          let todayStart := getUtcDayStart now
          let newDailySpend :=
            if spendCheck.resetNeeded then costUsdV
            else session.dailySpendUsd.getD 0 + costUsdV
          let session' :=
            { session with
                credits := newCredits
                tier := resolveTier session.tier
                dailySpendUsd := some newDailySpend
                lastDayReset :=
                  if spendCheck.resetNeeded then some todayStart else session.lastDayReset }
          let entry : LedgerEntry :=
            { sid := sid, delta := -amount, reason := "reservation",
              modelId := some modelId, costUsd := costUsd,
              generationId := some generationId, createdAt := now }
          (.ok newCredits, { session := session', ledger := db.ledger ++ [entry] })

/-- The return shapes of `releaseReservationInternal`. -/
inductive ReleaseResult where
  | sessionNotFound
  | alreadyReleased (newBalance : ℚ)
  | ok (newBalance : ℚ)
  deriving Repr, DecidableEq

/-- `releaseReservationInternal` evaluated at time `now`. -/
def releaseReservationInternal (db : DB) (sid generationId : String) (now : Nat) :
    ReleaseResult × DB :=
  if sid ≠ db.session.sid then (.sessionNotFound, db)
  else
    let session := db.session
    let ledgerEntries := entriesFor generationId sid db.ledger
    let reservationEntries := ledgerEntries.filter (fun e => e.reason == "reservation")
    if reservationEntries.length = 0 then
      (.alreadyReleased session.credits, db)
    else
      let reservedAmount := sumAbsDelta reservationEntries
      let reservationCostUsd := sumCostUsd reservationEntries
      let newCredits := session.credits + reservedAmount
      let newDailySpend := max 0 (session.dailySpendUsd.getD 0 - reservationCostUsd)
      let session' :=
        { session with
            credits := newCredits
            tier := resolveTier session.tier
            dailySpendUsd := some newDailySpend }
      let entry : LedgerEntry :=
        { sid := sid, delta := reservedAmount, reason := "refund", modelId := none,
          costUsd := none, generationId := some generationId, createdAt := now }
      (.ok newCredits, { session := session', ledger := db.ledger ++ [entry] })

/-- The return shapes of `deductCreditsInternal` (the `settle` operation):
`success: true, converted: true` comes with at most one of the fields
`refunded`, `additionalCharged`, `shortfall`. -/
inductive DeductResult where
  | sessionNotFound
  | convertedRefund (newBalance refunded : ℚ)
  | convertedShortfall (newBalance shortfall : ℚ)
  | convertedAdditional (newBalance additionalCharged : ℚ)
  | convertedExact (newBalance : ℚ)
  | alreadyCharged (newBalance : ℚ)
  | insufficientCredits (required available : ℚ)
  | ok (newBalance : ℚ)
  deriving Repr, DecidableEq

/-- The `newBalance` field of a deduct result, when present. -/
def DeductResult.newBalanceOf : DeductResult → Option ℚ
  | .sessionNotFound => none
  | .convertedRefund b _ => some b
  | .convertedShortfall b _ => some b
  | .convertedAdditional b _ => some b
  | .convertedExact b => some b
  | .alreadyCharged b => some b
  | .insufficientCredits _ _ => none
  | .ok b => some b

/-- Whether a deduct result carries `converted: true`. -/
def DeductResult.isConverted : DeductResult → Bool
  | .convertedRefund _ _ => true
  | .convertedShortfall _ _ => true
  | .convertedAdditional _ _ => true
  | .convertedExact _ => true
  | _ => false

/-- `deductCreditsInternal` evaluated at time `now`. -/
def deductCreditsInternal (db : DB) (sid : String) (amount : ℚ)
    (modelId generationId : String)
    (costUsd actualAmount actualCostUsd : Option ℚ) (now : Nat) :
    DeductResult × DB :=
  if sid ≠ db.session.sid then (.sessionNotFound, db)
  else
    let session := db.session
    let ledgerEntries := entriesFor generationId sid db.ledger
    let netDelta := netDeltaOf ledgerEntries
    let chargeAmount := actualAmount.getD amount
    let chargeCostUsd : Option ℚ :=
      match actualCostUsd with
      | some c => some c
      | none => costUsd
    if netDelta < 0 then
      let hasReservation := ledgerEntries.any (fun e => e.reason == "reservation")
      let hasGeneration := ledgerEntries.any (fun e => e.reason == "generation")
      if hasReservation && !hasGeneration then
        let reservationEntries := ledgerEntries.filter (fun e => e.reason == "reservation")
        let reservedAmount := sumAbsDelta reservationEntries
        let reservationCostUsd := sumCostUsd reservationEntries
        let difference := reservedAmount - chargeAmount
        if 0 < difference then
          let genEntry : LedgerEntry :=
            { sid := sid, delta := -chargeAmount, reason := "generation",
              modelId := some modelId, costUsd := chargeCostUsd,
              generationId := some generationId, createdAt := now }
          let refundEntry : LedgerEntry :=
            { sid := sid, delta := reservedAmount, reason := "refund", modelId := none,
              costUsd := none, generationId := some generationId, createdAt := now }
          let newCredits := session.credits + difference
          let actualC := chargeCostUsd.getD 0
          let costUsdDifference := reservationCostUsd - actualC
          let newDailySpend := max 0 (session.dailySpendUsd.getD 0 - costUsdDifference)
          (.convertedRefund newCredits difference,
           { session := { session with credits := newCredits, dailySpendUsd := some newDailySpend },
             ledger := db.ledger ++ [genEntry, refundEntry] })
        else if difference < 0 then
          let additionalNeeded := |difference|
          if session.credits < additionalNeeded then
            let genEntry : LedgerEntry :=
              { sid := sid, delta := -reservedAmount, reason := "generation",
                modelId := some modelId, costUsd := some reservationCostUsd,
                generationId := some generationId, createdAt := now }
            let refundEntry : LedgerEntry :=
              { sid := sid, delta := reservedAmount, reason := "refund", modelId := none,
                costUsd := none, generationId := some generationId, createdAt := now }
            (.convertedShortfall session.credits additionalNeeded,
             { session := session, ledger := db.ledger ++ [genEntry, refundEntry] })
          else
            let genEntry : LedgerEntry :=
              { sid := sid, delta := -chargeAmount, reason := "generation",
                modelId := some modelId, costUsd := chargeCostUsd,
                generationId := some generationId, createdAt := now }
            let refundEntry : LedgerEntry :=
              { sid := sid, delta := reservedAmount, reason := "refund", modelId := none,
                costUsd := none, generationId := some generationId, createdAt := now }
            let newCredits := session.credits - additionalNeeded
            let actualC := chargeCostUsd.getD 0
            let additionalCostUsd := actualC - reservationCostUsd
            let newDailySpend := session.dailySpendUsd.getD 0 + max 0 additionalCostUsd
            (.convertedAdditional newCredits additionalNeeded,
             { session := { session with credits := newCredits, dailySpendUsd := some newDailySpend },
               ledger := db.ledger ++ [genEntry, refundEntry] })
        else
          let genEntry : LedgerEntry :=
            { sid := sid, delta := -chargeAmount, reason := "generation",
              modelId := some modelId, costUsd := chargeCostUsd,
              generationId := some generationId, createdAt := now }
          let refundEntry : LedgerEntry :=
            { sid := sid, delta := reservedAmount, reason := "refund", modelId := none,
              costUsd := none, generationId := some generationId, createdAt := now }
          let actualC := chargeCostUsd.getD 0
          let costUsdDifference := reservationCostUsd - actualC
          let session' :=
            if costUsdDifference ≠ 0 then
              { session with
                  dailySpendUsd := some (max 0 (session.dailySpendUsd.getD 0 - costUsdDifference)) }
            else session
          (.convertedExact session.credits,
           { session := session', ledger := db.ledger ++ [genEntry, refundEntry] })
      else
        (.alreadyCharged session.credits, db)
    else
      if session.credits < chargeAmount then
        (.insufficientCredits chargeAmount session.credits, db)
      else
        let newCredits := session.credits - chargeAmount
        let genEntry : LedgerEntry :=
          { sid := sid, delta := -chargeAmount, reason := "generation",
            modelId := some modelId, costUsd := chargeCostUsd,
            generationId := some generationId, createdAt := now }
        (.ok newCredits,
         { session := { session with credits := newCredits, tier := resolveTier session.tier },
           ledger := db.ledger ++ [genEntry] })

/-- One call into the Ledger Engine, with its arguments. -/
inductive Op where
  | reserve (sid : String) (amount : ℚ) (modelId generationId : String)
      (costUsd : Option ℚ) (now : Nat)
  | deduct (sid : String) (amount : ℚ) (modelId generationId : String)
      (costUsd actualAmount actualCostUsd : Option ℚ) (now : Nat)
  | release (sid generationId : String) (now : Nat)
  | addCredits (sid : String) (amount : ℚ) (reason : String) (now : Nat)
  deriving Repr, DecidableEq

/-- The store after one Ledger Engine call (a thrown `addCredits` leaves
the store unchanged). -/
def applyOp (db : DB) (op : Op) : DB :=
  match op with
  | .reserve sid amount modelId generationId costUsd now =>
      (reserveCreditsInternal db sid amount modelId generationId costUsd now).2
  | .deduct sid amount modelId generationId costUsd actualAmount actualCostUsd now =>
      (deductCreditsInternal db sid amount modelId generationId costUsd
        actualAmount actualCostUsd now).2
  | .release sid generationId now =>
      (releaseReservationInternal db sid generationId now).2
  | .addCredits sid amount reason now =>
      match addCreditsInternal db sid amount reason now with
      | .ok (_, db') => db'
      | .error _ => db

/-- The store after a finite sequence of Ledger Engine calls. -/
def applyOps (db : DB) (ops : List Op) : DB :=
  ops.foldl applyOp db

/-! ### Helper lemmas about the ledger reductions -/

theorem foldl_add_abs_le (l : List LedgerEntry) (a : ℚ) :
    a ≤ l.foldl (fun sum e => sum + |e.delta|) a := by
  induction l generalizing a with
  | nil => exact le_refl a
  | cons e es ih =>
    simp only [List.foldl_cons]
    exact le_trans (by linarith [abs_nonneg e.delta]) (ih (a + |e.delta|))

theorem sumAbsDelta_nonneg (l : List LedgerEntry) : 0 ≤ sumAbsDelta l :=
  foldl_add_abs_le l 0

theorem entriesFor_append (g s : String) (l₁ l₂ : List LedgerEntry) :
    entriesFor g s (l₁ ++ l₂) = entriesFor g s l₁ ++ entriesFor g s l₂ := by
  simp [entriesFor, List.filter_append]

/-! ### C1: the balance never becomes negative -/

theorem reserve_preserves_nonneg (db : DB) (sid : String) (amount : ℚ)
    (modelId generationId : String) (costUsd : Option ℚ) (now : Nat)
    (h : 0 ≤ db.session.credits) :
    0 ≤ (reserveCreditsInternal db sid amount modelId generationId costUsd now).2.session.credits := by
  simp only [reserveCreditsInternal]
  split
  · exact h
  · split
    · exact h
    · split
      · exact h
      · split
        · exact h
        · next hins =>
          rw [not_lt] at hins
          have hp := sumAbsDelta_nonneg ((entriesFor generationId sid db.ledger).filter
            (fun e => e.reason == "reservation"))
          simp only
          linarith

theorem release_preserves_nonneg (db : DB) (sid generationId : String) (now : Nat)
    (h : 0 ≤ db.session.credits) :
    0 ≤ (releaseReservationInternal db sid generationId now).2.session.credits := by
  simp only [releaseReservationInternal]
  split
  · exact h
  · split
    · exact h
    · have hp := sumAbsDelta_nonneg ((entriesFor generationId sid db.ledger).filter
        (fun e => e.reason == "reservation"))
      simp only
      linarith

theorem deduct_preserves_nonneg (db : DB) (sid : String) (amount : ℚ)
    (modelId generationId : String)
    (costUsd actualAmount actualCostUsd : Option ℚ) (now : Nat)
    (h : 0 ≤ db.session.credits) :
    0 ≤ (deductCreditsInternal db sid amount modelId generationId costUsd
      actualAmount actualCostUsd now).2.session.credits := by
  simp only [deductCreditsInternal]
  split
  · exact h
  · split
    · split
      · split
        · next hdiff => simp only; linarith
        · split
          · split
            · exact h
            · next hno =>
              rw [not_lt] at hno
              simp only
              linarith
          · split
            · exact h
            · exact h
      · exact h
    · split
      · exact h
      · next hno =>
        rw [not_lt] at hno
        simp only
        linarith

theorem addCredits_preserves_nonneg (db : DB) (sid : String) (amount : ℚ)
    (reason : String) (now : Nat) (h : 0 ≤ db.session.credits) :
    0 ≤ (match addCreditsInternal db sid amount reason now with
          | .ok (_, db') => db'
          | .error _ => db).session.credits := by
  by_cases hpos : 0 < amount
  · by_cases hsid : sid ≠ db.session.sid
    · simp [addCreditsInternal, validatePositiveAmount, hpos, hsid]
      exact h
    · simp [addCreditsInternal, validatePositiveAmount, hpos, hsid]
      linarith
  · simp [addCreditsInternal, validatePositiveAmount, hpos]
    exact h

theorem applyOp_preserves_nonneg (db : DB) (op : Op) (h : 0 ≤ db.session.credits) :
    0 ≤ (applyOp db op).session.credits := by
  cases op with
  | reserve sid amount modelId generationId costUsd now =>
    exact reserve_preserves_nonneg db sid amount modelId generationId costUsd now h
  | deduct sid amount modelId generationId costUsd actualAmount actualCostUsd now =>
    exact deduct_preserves_nonneg db sid amount modelId generationId costUsd
      actualAmount actualCostUsd now h
  | release sid generationId now =>
    exact release_preserves_nonneg db sid generationId now h
  | addCredits sid amount reason now =>
    exact addCredits_preserves_nonneg db sid amount reason now h

/-- C1: No negative balance — starting from a non-negative credits balance,
after every finite sequence of Ledger Engine calls (`reserveCredits`,
`deductCredits`, `releaseReservation`, `addCredits`) on the account, the
credits balance is still `≥ 0`; since every prefix of a sequence is itself
a sequence, the balance is non-negative after every intermediate call. -/
theorem no_negative_balance (db : DB) (ops : List Op)
    (h : 0 ≤ db.session.credits) :
    0 ≤ (applyOps db ops).session.credits := by
  induction ops generalizing db with
  | nil => exact h
  | cons op ops ih =>
    exact ih (applyOp db op) (applyOp_preserves_nonneg db op h)

/-! ### Concrete stores used by witnesses and counterexamples -/

/-- A paid-tier session with the given balance and no daily-spend state. -/
def baseSession (credits : ℚ) : Session :=
  { sid := "s", tier := "paid", credits := credits, dailySpendUsd := none,
    dailySpendLimitUsd := none, lastDayReset := none }

/-- A store holding that session and an empty ledger. -/
def baseDB (credits : ℚ) : DB :=
  { session := baseSession credits, ledger := [] }

/-- Witness for C1: a concrete run (reserve 2, settle 2, release) from
balance 100 keeps the balance non-negative. -/
theorem no_negative_balance_witness :
    0 ≤ (applyOps (baseDB 100)
      [.reserve "s" 2 "m" "g1" none 0, .deduct "s" 2 "m" "g1" none (some 2) none 0,
       .release "s" "g1" 0]).session.credits :=
  no_negative_balance (baseDB 100)
    [.reserve "s" 2 "m" "g1" none 0, .deduct "s" 2 "m" "g1" none (some 2) none 0,
     .release "s" "g1" 0] (by norm_num [baseDB, baseSession])

/-! ### C2: release after settlement -/

/-- Balance 100, then `reserve("g1", 2)` and `deductCredits("g1",
reservedAmount 2, actualAmount 2)`: the spec's scenario state with
balance 98 and a fully settled reservation for `g1`. -/
def settledStore : DB :=
  applyOps (baseDB 100)
    [.reserve "s" 2 "m" "g1" none 0, .deduct "s" 2 "m" "g1" none (some 2) none 0]

/-- C2: the code is wrong.  `releaseReservationInternal` only checks that
SOME `reservation` entry exists for the generationId — not that it is
still outstanding — so after reserve 2 / settle 2 (balance 98) a
subsequent release is NOT the claimed idempotent no-op: it returns plain
success (not `alreadyReleased`), restores the already-settled 2 credits
(balance 98 → 100) and appends a further `refund` entry.  This
contradicts the route code's own comment that `releaseReservation` is
idempotent and safe to call multiple times. -/
theorem release_after_settle_mutates :
    settledStore.session.credits = 98 ∧
    (releaseReservationInternal settledStore "s" "g1" 0).1 = .ok 100 ∧
    (releaseReservationInternal settledStore "s" "g1" 0).2.session.credits = 100 ∧
    (releaseReservationInternal settledStore "s" "g1" 0).2.ledger.length =
      settledStore.ledger.length + 1 := by
  simp [settledStore, applyOps, applyOp, baseDB, baseSession, reserveCreditsInternal,
    deductCreditsInternal, releaseReservationInternal, checkDailySpendLimit,
    DEFAULT_DAILY_SPEND_LIMIT_USD, getUtcDayStart, entriesFor, netDeltaOf, sumAbsDelta,
    sumCostUsd, resolveTier, List.filter, List.foldl, List.any, String.reduceEq]
  norm_num

/-! ### C5: the streaming settlement guard of the chat route -/

/-- The two terminal ledger actions the chat route can take for a stream:
convert the reservation (`deductCredits`) on normal finish, or release it
(`releaseReservation`) on cancellation / mid-stream error. -/
inductive SettleMode where
  | deduct
  | release
  deriving Repr, DecidableEq

/-- The in-request state of the chat route around one stream: the
single-assignment `creditSettlement` promise variable, plus the terminal
ledger actions performed so far (for counting). -/
structure StreamState where
  creditSettlement : Option SettleMode
  ledgerCalls : List SettleMode
  deriving Repr, DecidableEq

/-- `settleCredits(mode, reason)` from the chat route.  `guard` is the
conjunction `convex && sessionId && generationId && creditReserved`; when
it fails the function performs nothing.  Otherwise the synchronous
check-then-assign on `creditSettlement` runs atomically within one
event-loop turn: if the promise is already assigned it is returned
unchanged, else it is assigned and the terminal ledger action runs. -/
def settleCredits (guard : Bool) (st : StreamState) (mode : SettleMode) : StreamState :=
  if !guard then st
  else
    match st.creditSettlement with
    | some _ => st
    | none => { creditSettlement := some mode, ledgerCalls := st.ledgerCalls ++ [mode] }

/-- Stream state before any trigger has fired. -/
def initialStreamState : StreamState :=
  { creditSettlement := none, ledgerCalls := [] }

/-- The three racing trigger paths (flush on finish → deduct, cancel →
release, pump error → release), serialized by the single-threaded event
loop in their arrival order, each invoking `settleCredits`. -/
def runTriggers (guard : Bool) (st : StreamState) (triggers : List SettleMode) : StreamState :=
  triggers.foldl (settleCredits guard) st

theorem runTriggers_resolved (st : StreamState) (m : SettleMode)
    (h : st.creditSettlement = some m) (triggers : List SettleMode) :
    runTriggers true st triggers = st := by
  induction triggers with
  | nil => rfl
  | cons t ts ih =>
    simp only [runTriggers, List.foldl_cons, settleCredits, h, Bool.not_true]
    simpa only [runTriggers, if_false] using ih

/-- C5: Streaming exactly-once settlement — with the guard conditions of a
credit-reserved stream, whatever nonempty sequence of triggers fires
(finish / cancel / error, duplicates included), exactly one terminal
ledger action is performed, it is the one of the first trigger, and every
later trigger observes the already-resolved settlement and performs no
ledger call. -/
theorem stream_settles_exactly_once (first : SettleMode) (rest : List SettleMode) :
    (runTriggers true initialStreamState (first :: rest)).ledgerCalls = [first] ∧
    (runTriggers true initialStreamState (first :: rest)).creditSettlement = some first := by
  have hstep : settleCredits true initialStreamState first =
      { creditSettlement := some first, ledgerCalls := [first] } := by
    simp [settleCredits, initialStreamState]
  have : runTriggers true initialStreamState (first :: rest) =
      { creditSettlement := some first, ledgerCalls := [first] } := by
    simp only [runTriggers, List.foldl_cons, hstep]
    exact runTriggers_resolved _ first rfl rest
  rw [this]
  exact ⟨rfl, rfl⟩

/-! ### A successful reservation on a fresh generationId, in closed form -/

theorem reserve_fresh_ok (db : DB) (amount : ℚ) (modelId generationId : String)
    (costUsd : Option ℚ) (now : Nat)
    (hspend : (checkDailySpendLimit db.session (costUsd.getD 0) now).allowed = true)
    (hfresh : entriesFor generationId db.session.sid db.ledger = [])
    (hsuff : amount ≤ db.session.credits) :
    reserveCreditsInternal db db.session.sid amount modelId generationId costUsd now =
      (.ok (db.session.credits - amount),
       { session :=
           { db.session with
               credits := db.session.credits - amount
               tier := resolveTier db.session.tier
               dailySpendUsd := some
                 (if (checkDailySpendLimit db.session (costUsd.getD 0) now).resetNeeded then
                    costUsd.getD 0
                  else db.session.dailySpendUsd.getD 0 + costUsd.getD 0)
               lastDayReset :=
                 if (checkDailySpendLimit db.session (costUsd.getD 0) now).resetNeeded then
                   some (getUtcDayStart now)
                 else db.session.lastDayReset },
         ledger := db.ledger ++
           [{ sid := db.session.sid, delta := -amount, reason := "reservation",
              modelId := some modelId, costUsd := costUsd,
              generationId := some generationId, createdAt := now }] }) := by
  have h1 : ¬ (db.session.sid ≠ db.session.sid) := fun h => h rfl
  have h2 : ¬ ((checkDailySpendLimit db.session (costUsd.getD 0) now).allowed = false) := by
    simp [hspend]
  have h3 : ¬ (netDeltaOf (entriesFor generationId db.session.sid db.ledger) < 0) := by
    rw [hfresh]
    simp [netDeltaOf]
  have h4 : ¬ (db.session.credits -
      sumAbsDelta ((entriesFor generationId db.session.sid db.ledger).filter
        (fun e => e.reason == "reservation")) < amount) := by
    rw [hfresh]
    simp [sumAbsDelta]
    exact hsuff
  simp only [reserveCreditsInternal]
  rw [if_neg h1, if_neg h2, if_neg h3, if_neg h4]

/-! ### C7: the daily-spend gate rejects before any mutation -/

/-- A reserve call for a non-admin session inside its current UTC-day
window whose cost pushes the daily spend over the limit is rejected
before any mutation. -/
theorem reserve_gate_reject (db : DB) (sid : String) (amount : ℚ)
    (modelId generationId : String)
    (cost spend lim : ℚ) (r now : Nat)
    (hsid : sid = db.session.sid)
    (htier : db.session.tier ≠ "admin")
    (hspendv : db.session.dailySpendUsd = some spend)
    (hlim : db.session.dailySpendLimitUsd = some lim)
    (hreset : db.session.lastDayReset = some r)
    (hr : getUtcDayStart now ≤ r)
    (hover : lim < spend + cost) :
    reserveCreditsInternal db sid amount modelId generationId (some cost) now =
      (.dailyLimitExceeded (some lim) spend (some (max 0 (lim - spend))), db) := by
  have hcheck : checkDailySpendLimit db.session ((some cost).getD 0) now =
      { allowed := false, currentSpend := spend, limit := some lim,
        resetNeeded := false, remaining := some (max 0 (lim - spend)) } := by
    rw [checkDailySpendLimit, if_neg htier]
    simp only [hspendv, hlim, hreset, Option.getD_some]
    rw [if_pos]
    · simp [Nat.not_lt.mpr hr]
    · simpa [Nat.not_lt.mpr hr] using hover
  have h1 : ¬ (sid ≠ db.session.sid) := by simp [hsid]
  simp only [reserveCreditsInternal]
  rw [if_neg h1, if_pos (by rw [hcheck])]
  rw [hcheck]

/-- C7: Daily-spend gate — for a standard-tier (non-admin) account whose
current UTC-day window is still open, a reserve call whose cost pushes
`dailySpend + cost` over `dailySpendLimit` is rejected with the
daily-limit error reporting `remaining = max 0 (limit − dailySpend)`, and
the store (balance, dailySpend, ledger) is returned unchanged. -/
theorem daily_spend_gate (db : DB) (amount : ℚ) (modelId generationId : String)
    (cost spend lim : ℚ) (r now : Nat)
    (htier : db.session.tier ≠ "admin")
    (hspendv : db.session.dailySpendUsd = some spend)
    (hlim : db.session.dailySpendLimitUsd = some lim)
    (hreset : db.session.lastDayReset = some r)
    (hr : getUtcDayStart now ≤ r)
    (hover : lim < spend + cost) :
    reserveCreditsInternal db db.session.sid amount modelId generationId (some cost) now =
      (.dailyLimitExceeded (some lim) spend (some (max 0 (lim - spend))), db) :=
  reserve_gate_reject db db.session.sid amount modelId generationId cost spend lim r now
    rfl htier hspendv hlim hreset hr hover

/-- The spec's daily-limit example session: limit 5.00, spent 4.50. -/
def gateSession : Session :=
  { sid := "s", tier := "paid", credits := 100, dailySpendUsd := some (9/2),
    dailySpendLimitUsd := some 5, lastDayReset := some 0 }

/-- Store holding `gateSession` and an empty ledger. -/
def gateStore : DB :=
  { session := gateSession, ledger := [] }

/-- Witness for C7: the spec's example — limit 5.00, spent 4.50, cost
0.60 — is rejected with remaining 0.50 and the store untouched. -/
theorem daily_spend_gate_witness :
    reserveCreditsInternal gateStore "s" 1 "m" "g" (some (3/5)) 0 =
      (.dailyLimitExceeded (some 5) (9/2) (some (max 0 (5 - 9/2))), gateStore) :=
  daily_spend_gate gateStore 1 "m" "g" (3/5) (9/2) 5 0 0
    (by simp [gateStore, gateSession]) rfl rfl rfl
    (by norm_num [getUtcDayStart]) (by norm_num)

/-! ### C8: the unlimited (admin) tier and reserveCredits -/

/-- An admin-tier session with balance 10. -/
def adminSession : Session :=
  { sid := "s", tier := "admin", credits := 10, dailySpendUsd := none,
    dailySpendLimitUsd := none, lastDayReset := none }

/-- An admin-tier store with balance 10, used to refute C8. -/
def adminStore : DB :=
  { session := adminSession, ledger := [] }

/-- C8 counterexample: on an admin (unlimited-tier) account with balance
10, `reserveCredits(amount = 3)` does NOT leave the balance unchanged —
it succeeds and debits the balance to 7, so the claimed "no balance
mutation" bypass does not happen inside `reserveCreditsInternal`. -/
theorem admin_reserve_mutates_balance :
    (reserveCreditsInternal adminStore "s" 3 "m" "g" none 0).1 = .ok 7 ∧
    (reserveCreditsInternal adminStore "s" 3 "m" "g" none 0).2.session.credits = 7 ∧
    ¬ (reserveCreditsInternal adminStore "s" 3 "m" "g" none 0).2.session.credits =
        adminStore.session.credits := by
  refine ⟨?_, ?_, ?_⟩ <;>
    · simp [adminStore, adminSession, reserveCreditsInternal, checkDailySpendLimit, entriesFor,
        netDeltaOf, sumAbsDelta, resolveTier, getUtcDayStart, String.reduceEq,
        DEFAULT_DAILY_SPEND_LIMIT_USD]
      norm_num

/-- C8 (amended): for an admin-tier (unlimited) account, `reserveCredits`
skips only the daily-spend check (`checkDailySpendLimit` always allows
admin); it still runs the balance check and, on success, debits the
balance by the reserved amount.  (The no-mutation bypass lives in the
orchestrators, which never call `reserveCredits` for admin sessions.) -/
theorem admin_reserve_skips_spend_check_only (db : DB) (amount : ℚ)
    (modelId generationId : String) (costUsd : Option ℚ) (now : Nat)
    (htier : db.session.tier = "admin")
    (hfresh : entriesFor generationId db.session.sid db.ledger = [])
    (hsuff : amount ≤ db.session.credits) :
    (checkDailySpendLimit db.session (costUsd.getD 0) now).allowed = true ∧
    (reserveCreditsInternal db db.session.sid amount modelId generationId costUsd now).1 =
      .ok (db.session.credits - amount) ∧
    (reserveCreditsInternal db db.session.sid amount modelId generationId
      costUsd now).2.session.credits = db.session.credits - amount := by
  have hallow : (checkDailySpendLimit db.session (costUsd.getD 0) now).allowed = true := by
    rw [checkDailySpendLimit, if_pos htier]
  refine ⟨hallow, ?_, ?_⟩ <;>
    rw [reserve_fresh_ok db amount modelId generationId costUsd now hallow hfresh hsuff]

/-- Witness for C8's amended theorem: admin balance 10, reserve 3 →
success with new balance 7. -/
theorem admin_reserve_skips_spend_check_only_witness :
    (checkDailySpendLimit adminStore.session ((none : Option ℚ).getD 0) 0).allowed = true ∧
    (reserveCreditsInternal adminStore "s" 3 "m" "g" none 0).1 = .ok (10 - 3) ∧
    (reserveCreditsInternal adminStore "s" 3 "m" "g" none 0).2.session.credits = 10 - 3 :=
  admin_reserve_skips_spend_check_only adminStore 3 "m" "g" none 0 rfl rfl
    (by norm_num [adminStore, adminSession])

/-! ### C10: reserveCredits performs no positivity validation -/

/-- C10: reserve does not enforce its positivity precondition — for an
account passing the daily-spend gate, with non-negative balance and a
fresh generationId, `reserveCredits` with `amount ≤ 0` succeeds (the
insufficient-credits branch is not taken), sets the balance to
`balance − amount` (a strict increase when `amount < 0`), and appends a
reservation ledger entry with delta `−amount` (positive when
`amount < 0`); the guard `validatePositiveAmount` is applied by
`addCreditsInternal`, which rejects the same amount. -/
theorem reserve_accepts_nonpositive_amount (db : DB) (a : ℚ)
    (modelId generationId grantReason : String) (now : Nat)
    (hspend : (checkDailySpendLimit db.session 0 now).allowed = true)
    (hfresh : entriesFor generationId db.session.sid db.ledger = [])
    (hnn : 0 ≤ db.session.credits) (ha : a ≤ 0) :
    (reserveCreditsInternal db db.session.sid a modelId generationId none now).1 =
      .ok (db.session.credits - a) ∧
    (reserveCreditsInternal db db.session.sid a modelId generationId
      none now).2.session.credits = db.session.credits - a ∧
    (reserveCreditsInternal db db.session.sid a modelId generationId none now).2.ledger =
      db.ledger ++
        [{ sid := db.session.sid, delta := -a, reason := "reservation",
           modelId := some modelId, costUsd := none,
           generationId := some generationId, createdAt := now }] ∧
    (a < 0 → db.session.credits < db.session.credits - a ∧ 0 < -a) ∧
    addCreditsInternal db db.session.sid a grantReason now =
      .error "Amount must be a positive number" := by
  have hsuff : a ≤ db.session.credits := le_trans ha hnn
  have hres := reserve_fresh_ok db a modelId generationId none now hspend hfresh hsuff
  refine ⟨by rw [hres], by rw [hres], by rw [hres], fun hlt => ⟨by linarith, by linarith⟩, ?_⟩
  rw [addCreditsInternal, if_pos]
  simp [validatePositiveAmount, not_lt.mpr ha]

/-- Witness for C10: balance 50, reserve −5 → success, balance 55, the
ledger entry has delta +5, and the same −5 is rejected by addCredits. -/
theorem reserve_accepts_nonpositive_amount_witness :
    (reserveCreditsInternal (baseDB 50) "s" (-5) "m" "g" none 0).1 = .ok (50 - (-5)) ∧
    (reserveCreditsInternal (baseDB 50) "s" (-5) "m" "g" none 0).2.session.credits = 50 - (-5) ∧
    (reserveCreditsInternal (baseDB 50) "s" (-5) "m" "g" none 0).2.ledger =
      (baseDB 50).ledger ++
        [{ sid := "s", delta := -(-5), reason := "reservation", modelId := some "m",
           costUsd := none, generationId := some "g", createdAt := 0 }] ∧
    ((-5 : ℚ) < 0 → (50 : ℚ) < 50 - (-5) ∧ (0:ℚ) < -(-5)) ∧
    addCreditsInternal (baseDB 50) "s" (-5) "grant" 0 =
      .error "Amount must be a positive number" :=
  reserve_accepts_nonpositive_amount (baseDB 50) (-5) "m" "g" "grant" 0
    (by simp [baseDB, baseSession, checkDailySpendLimit, getUtcDayStart,
      DEFAULT_DAILY_SPEND_LIMIT_USD, String.reduceEq]; norm_num)
    rfl (by norm_num [baseDB, baseSession]) (by norm_num)

/-! ### Settlement of a single outstanding reservation, branch by branch -/

/-- Settling a generationId whose only ledger entries are one reservation
of `A` with `actualAmount = B < A`: refund branch. -/
theorem deduct_single_res_refund (db : DB) (sid : String) (e : LedgerEntry) (A B amt : ℚ)
    (modelId generationId : String) (cu acu : Option ℚ) (now : Nat)
    (hsid : sid = db.session.sid)
    (hE : entriesFor generationId sid db.ledger = [e])
    (hre : e.reason = "reservation") (hd : e.delta = -A) (hA : 0 < A) (hB : B < A) :
    (deductCreditsInternal db sid amt modelId generationId cu
      (some B) acu now).1 = .convertedRefund (db.session.credits + (A - B)) (A - B) ∧
    (deductCreditsInternal db sid amt modelId generationId cu
      (some B) acu now).2.session.credits = db.session.credits + (A - B) := by
  have h1 : ¬ (sid ≠ db.session.sid) := by simp [hsid]
  have hnet : netDeltaOf (entriesFor generationId sid db.ledger) = -A := by
    rw [hE]
    simp [netDeltaOf, hre, hd]
  have hres : (entriesFor generationId sid db.ledger).any
      (fun x => x.reason == "reservation") = true := by
    rw [hE]
    simp [hre]
  have hgen : (entriesFor generationId sid db.ledger).any
      (fun x => x.reason == "generation") = false := by
    rw [hE]
    simp [hre]
  have hsum : sumAbsDelta ((entriesFor generationId sid db.ledger).filter
      (fun x => x.reason == "reservation")) = A := by
    rw [hE]
    simp [sumAbsDelta, hre, hd, abs_of_pos hA]
  simp only [deductCreditsInternal, Option.getD_some]
  rw [if_neg h1, if_pos (by rw [hnet]; linarith), if_pos (by rw [hres, hgen]; rfl),
    hsum, if_pos (by linarith : (0:ℚ) < A - B)]
  exact ⟨rfl, rfl⟩


/-- Settling a single outstanding reservation of `A` with
`actualAmount = B > A` when the remaining balance cannot cover the extra:
shortfall branch — balance untouched, only the reserved amount charged. -/
theorem deduct_single_res_shortfall (db : DB) (sid : String) (e : LedgerEntry) (A B amt : ℚ)
    (modelId generationId : String) (cu acu : Option ℚ) (now : Nat)
    (hsid : sid = db.session.sid)
    (hE : entriesFor generationId sid db.ledger = [e])
    (hre : e.reason = "reservation") (hd : e.delta = -A) (hA : 0 < A) (hB : A < B)
    (hcr : db.session.credits < B - A) :
    (deductCreditsInternal db sid amt modelId generationId cu
      (some B) acu now).1 = .convertedShortfall db.session.credits (B - A) ∧
    (deductCreditsInternal db sid amt modelId generationId cu
      (some B) acu now).2.session = db.session ∧
    (deductCreditsInternal db sid amt modelId generationId cu
      (some B) acu now).2.ledger = db.ledger ++
      [{ sid := sid, delta := -A, reason := "generation",
         modelId := some modelId, costUsd := some (e.costUsd.getD 0),
         generationId := some generationId, createdAt := now },
       { sid := sid, delta := A, reason := "refund", modelId := none,
         costUsd := none, generationId := some generationId, createdAt := now }] := by
  have h1 : ¬ (sid ≠ db.session.sid) := by simp [hsid]
  have hnet : netDeltaOf (entriesFor generationId sid db.ledger) = -A := by
    rw [hE]
    simp [netDeltaOf, hre, hd]
  have hres : (entriesFor generationId sid db.ledger).any
      (fun x => x.reason == "reservation") = true := by
    rw [hE]
    simp [hre]
  have hgen : (entriesFor generationId sid db.ledger).any
      (fun x => x.reason == "generation") = false := by
    rw [hE]
    simp [hre]
  have hsum : sumAbsDelta ((entriesFor generationId sid db.ledger).filter
      (fun x => x.reason == "reservation")) = A := by
    rw [hE]
    simp [sumAbsDelta, hre, hd, abs_of_pos hA]
  have hcost : sumCostUsd ((entriesFor generationId sid db.ledger).filter
      (fun x => x.reason == "reservation")) = e.costUsd.getD 0 := by
    rw [hE]
    simp [sumCostUsd, hre]
  have habs : |A - B| = B - A := by
    rw [abs_of_neg (by linarith)]
    ring
  simp only [deductCreditsInternal, Option.getD_some]
  rw [if_neg h1, if_pos (by rw [hnet]; linarith), if_pos (by rw [hres, hgen]; rfl),
    hsum, hcost, if_neg (by linarith : ¬ ((0:ℚ) < A - B)),
    if_pos (by linarith : A - B < 0), habs, if_pos hcr]
  exact ⟨rfl, rfl, rfl⟩

/-- Settling a single outstanding reservation of `A` with
`actualAmount = B > A` when the balance covers the extra: additional
charge branch. -/
theorem deduct_single_res_additional (db : DB) (sid : String) (e : LedgerEntry) (A B amt : ℚ)
    (modelId generationId : String) (cu acu : Option ℚ) (now : Nat)
    (hsid : sid = db.session.sid)
    (hE : entriesFor generationId sid db.ledger = [e])
    (hre : e.reason = "reservation") (hd : e.delta = -A) (hA : 0 < A) (hB : A < B)
    (hcr : ¬ db.session.credits < B - A) :
    (deductCreditsInternal db sid amt modelId generationId cu
      (some B) acu now).1 = .convertedAdditional (db.session.credits - (B - A)) (B - A) ∧
    (deductCreditsInternal db sid amt modelId generationId cu
      (some B) acu now).2.session.credits = db.session.credits - (B - A) := by
  have h1 : ¬ (sid ≠ db.session.sid) := by simp [hsid]
  have hnet : netDeltaOf (entriesFor generationId sid db.ledger) = -A := by
    rw [hE]
    simp [netDeltaOf, hre, hd]
  have hres : (entriesFor generationId sid db.ledger).any
      (fun x => x.reason == "reservation") = true := by
    rw [hE]
    simp [hre]
  have hgen : (entriesFor generationId sid db.ledger).any
      (fun x => x.reason == "generation") = false := by
    rw [hE]
    simp [hre]
  have hsum : sumAbsDelta ((entriesFor generationId sid db.ledger).filter
      (fun x => x.reason == "reservation")) = A := by
    rw [hE]
    simp [sumAbsDelta, hre, hd, abs_of_pos hA]
  have habs : |A - B| = B - A := by
    rw [abs_of_neg (by linarith)]
    ring
  simp only [deductCreditsInternal, Option.getD_some]
  rw [if_neg h1, if_pos (by rw [hnet]; linarith), if_pos (by rw [hres, hgen]; rfl),
    hsum, if_neg (by linarith : ¬ ((0:ℚ) < A - B)),
    if_pos (by linarith : A - B < 0), habs, if_neg hcr]
  exact ⟨rfl, rfl⟩

/-- Settling a single outstanding reservation of `A` with
`actualAmount = A`: exact-match conversion, no balance change. -/
theorem deduct_single_res_exact (db : DB) (sid : String) (e : LedgerEntry) (A amt : ℚ)
    (modelId generationId : String) (cu acu : Option ℚ) (now : Nat)
    (hsid : sid = db.session.sid)
    (hE : entriesFor generationId sid db.ledger = [e])
    (hre : e.reason = "reservation") (hd : e.delta = -A) (hA : 0 < A) :
    (deductCreditsInternal db sid amt modelId generationId cu
      (some A) acu now).1 = .convertedExact db.session.credits ∧
    (deductCreditsInternal db sid amt modelId generationId cu
      (some A) acu now).2.session.credits = db.session.credits := by
  have h1 : ¬ (sid ≠ db.session.sid) := by simp [hsid]
  have hnet : netDeltaOf (entriesFor generationId sid db.ledger) = -A := by
    rw [hE]
    simp [netDeltaOf, hre, hd]
  have hres : (entriesFor generationId sid db.ledger).any
      (fun x => x.reason == "reservation") = true := by
    rw [hE]
    simp [hre]
  have hgen : (entriesFor generationId sid db.ledger).any
      (fun x => x.reason == "generation") = false := by
    rw [hE]
    simp [hre]
  have hsum : sumAbsDelta ((entriesFor generationId sid db.ledger).filter
      (fun x => x.reason == "reservation")) = A := by
    rw [hE]
    simp [sumAbsDelta, hre, hd, abs_of_pos hA]
  simp only [deductCreditsInternal, Option.getD_some]
  rw [if_neg h1, if_pos (by rw [hnet]; linarith), if_pos (by rw [hres, hgen]; rfl),
    hsum, if_neg (by linarith : ¬ ((0:ℚ) < A - A)), if_neg (by linarith : ¬ (A - A < 0))]
  constructor
  · rfl
  · split
    · rfl
    · rfl


/-- C3: Round-trip reconciliation — for every account with sufficient
funds and a fresh generationId, `reserveCredits(amount = A)` followed by
`deductCredits(reservedAmount = A, actualAmount = B)` for the same
generationId leaves the balance at `initial − B`, in each of the three
cases `B < A`, `B = A` and `B > A` (the last under the hypothesis that
the balance also covers `B`). -/
theorem reserve_settle_roundtrip (db : DB) (A B : ℚ) (modelId generationId : String)
    (now : Nat)
    (hspend : (checkDailySpendLimit db.session 0 now).allowed = true)
    (hfresh : entriesFor generationId db.session.sid db.ledger = [])
    (hA : 0 < A) (hsuff : A ≤ db.session.credits)
    (hcover : A < B → B ≤ db.session.credits) :
    (reserveCreditsInternal db db.session.sid A modelId generationId none now).1 =
      .ok (db.session.credits - A) ∧
    ((deductCreditsInternal
        (reserveCreditsInternal db db.session.sid A modelId generationId none now).2
        db.session.sid A modelId generationId none (some B) none now).1).newBalanceOf =
      some (db.session.credits - B) ∧
    ((deductCreditsInternal
        (reserveCreditsInternal db db.session.sid A modelId generationId none now).2
        db.session.sid A modelId generationId none (some B) none now).1).isConverted = true ∧
    (deductCreditsInternal
        (reserveCreditsInternal db db.session.sid A modelId generationId none now).2
        db.session.sid A modelId generationId none (some B) none now).2.session.credits =
      db.session.credits - B := by
  have hspend' : (checkDailySpendLimit db.session ((none : Option ℚ).getD 0) now).allowed = true := by
    simpa using hspend
  have hres := reserve_fresh_ok db A modelId generationId none now hspend' hfresh hsuff
  have hr1 : (reserveCreditsInternal db db.session.sid A modelId generationId none now).1 =
      .ok (db.session.credits - A) := by rw [hres]
  have hsid : db.session.sid =
      (reserveCreditsInternal db db.session.sid A modelId generationId none now).2.session.sid := by
    rw [hres]
  have hcred : (reserveCreditsInternal db db.session.sid A modelId generationId
      none now).2.session.credits = db.session.credits - A := by
    rw [hres]
  have hled : (reserveCreditsInternal db db.session.sid A modelId generationId
      none now).2.ledger = db.ledger ++
      [{ sid := db.session.sid, delta := -A, reason := "reservation",
         modelId := some modelId, costUsd := none,
         generationId := some generationId, createdAt := now }] := by
    rw [hres]
  have hE1 : entriesFor generationId db.session.sid
      (reserveCreditsInternal db db.session.sid A modelId generationId none now).2.ledger =
      [{ sid := db.session.sid, delta := -A, reason := "reservation",
         modelId := some modelId, costUsd := none,
         generationId := some generationId, createdAt := now }] := by
    rw [hled, entriesFor_append, hfresh]
    simp [entriesFor]
  refine ⟨hr1, ?_⟩
  rcases lt_trichotomy B A with hBA | hBA | hBA
  · obtain ⟨r1, r2⟩ := deduct_single_res_refund
      (reserveCreditsInternal db db.session.sid A modelId generationId none now).2
      db.session.sid _ A B A modelId generationId none none now hsid hE1 rfl rfl hA hBA
    rw [r1, r2, hcred]
    refine ⟨by simp [DeductResult.newBalanceOf], rfl, by ring⟩
  · subst hBA
    obtain ⟨r1, r2⟩ := deduct_single_res_exact
      (reserveCreditsInternal db db.session.sid B modelId generationId none now).2
      db.session.sid _ B B modelId generationId none none now hsid hE1 rfl rfl hA
    rw [r1, r2, hcred]
    refine ⟨by simp [DeductResult.newBalanceOf], rfl, rfl⟩
  · have hcr : ¬ (reserveCreditsInternal db db.session.sid A modelId generationId
        none now).2.session.credits < B - A := by
      rw [hcred]
      have := hcover hBA
      linarith
    obtain ⟨r1, r2⟩ := deduct_single_res_additional
      (reserveCreditsInternal db db.session.sid A modelId generationId none now).2
      db.session.sid _ A B A modelId generationId none none now hsid hE1 rfl rfl hA hBA hcr
    rw [r1, r2, hcred]
    refine ⟨by simp [DeductResult.newBalanceOf], rfl, by ring⟩


/-- C6: Shortfall boundary — for an account whose balance exactly equals
the reserved amount `A`, reserve `A` (leaving balance 0) and then settle
with `actualAmount = B > A`: the final balance is 0 (never negative), the
result is a degraded success reporting `shortfall = B − A`, and the ledger
shows that only the originally reserved amount was charged (the
`generation` entry has delta `−A`, the `refund` entry `+A`). -/
theorem shortfall_boundary (db : DB) (A B : ℚ) (modelId generationId : String)
    (now : Nat)
    (hspend : (checkDailySpendLimit db.session 0 now).allowed = true)
    (hfresh : entriesFor generationId db.session.sid db.ledger = [])
    (hbal : db.session.credits = A) (hA : 0 < A) (hB : A < B) :
    (reserveCreditsInternal db db.session.sid A modelId generationId none now).1 = .ok 0 ∧
    (deductCreditsInternal
        (reserveCreditsInternal db db.session.sid A modelId generationId none now).2
        db.session.sid A modelId generationId none (some B) none now).1 =
      .convertedShortfall 0 (B - A) ∧
    (deductCreditsInternal
        (reserveCreditsInternal db db.session.sid A modelId generationId none now).2
        db.session.sid A modelId generationId none (some B) none now).2.session.credits = 0 ∧
    (deductCreditsInternal
        (reserveCreditsInternal db db.session.sid A modelId generationId none now).2
        db.session.sid A modelId generationId none (some B) none now).2.ledger =
      db.ledger ++
      [{ sid := db.session.sid, delta := -A, reason := "reservation",
         modelId := some modelId, costUsd := none,
         generationId := some generationId, createdAt := now },
       { sid := db.session.sid, delta := -A, reason := "generation",
         modelId := some modelId, costUsd := some 0,
         generationId := some generationId, createdAt := now },
       { sid := db.session.sid, delta := A, reason := "refund", modelId := none,
         costUsd := none, generationId := some generationId, createdAt := now }] := by
  have hspend' : (checkDailySpendLimit db.session ((none : Option ℚ).getD 0) now).allowed = true := by
    simpa using hspend
  have hsuff : A ≤ db.session.credits := le_of_eq hbal.symm
  have hres := reserve_fresh_ok db A modelId generationId none now hspend' hfresh hsuff
  have hr1 : (reserveCreditsInternal db db.session.sid A modelId generationId none now).1 =
      .ok (db.session.credits - A) := by rw [hres]
  have hsid : db.session.sid =
      (reserveCreditsInternal db db.session.sid A modelId generationId none now).2.session.sid := by
    rw [hres]
  have hcred : (reserveCreditsInternal db db.session.sid A modelId generationId
      none now).2.session.credits = 0 := by
    rw [hres]
    simp [hbal]
  have hled : (reserveCreditsInternal db db.session.sid A modelId generationId
      none now).2.ledger = db.ledger ++
      [{ sid := db.session.sid, delta := -A, reason := "reservation",
         modelId := some modelId, costUsd := none,
         generationId := some generationId, createdAt := now }] := by
    rw [hres]
  have hE1 : entriesFor generationId db.session.sid
      (reserveCreditsInternal db db.session.sid A modelId generationId none now).2.ledger =
      [{ sid := db.session.sid, delta := -A, reason := "reservation",
         modelId := some modelId, costUsd := none,
         generationId := some generationId, createdAt := now }] := by
    rw [hled, entriesFor_append, hfresh]
    simp [entriesFor]
  have hcr : (reserveCreditsInternal db db.session.sid A modelId generationId
      none now).2.session.credits < B - A := by
    rw [hcred]
    linarith
  obtain ⟨r1, r2, r3⟩ := deduct_single_res_shortfall
    (reserveCreditsInternal db db.session.sid A modelId generationId none now).2
    db.session.sid _ A B A modelId generationId none none now hsid hE1 rfl rfl hA hB hcr
  refine ⟨by rw [hr1, hbal, sub_self], ?_, ?_, ?_⟩
  · rw [r1, hcred]
  · rw [congrArg Session.credits r2, hcred]
  · rw [r3, hled, List.append_assoc]
    rfl


/-- A reserve call that passes the spend gate and finds a negative net
delta for its generationId returns `alreadyReserved` and mutates nothing. -/
theorem reserve_already (db : DB) (sid : String) (amount : ℚ)
    (modelId generationId : String) (costUsd : Option ℚ) (now : Nat)
    (hsid : sid = db.session.sid)
    (hallow : (checkDailySpendLimit db.session (costUsd.getD 0) now).allowed = true)
    (hnet : netDeltaOf (entriesFor generationId sid db.ledger) < 0) :
    reserveCreditsInternal db sid amount modelId generationId costUsd now =
      (.alreadyReserved db.session.credits, db) := by
  have h1 : ¬ (sid ≠ db.session.sid) := by simp [hsid]
  have h2 : ¬ ((checkDailySpendLimit db.session (costUsd.getD 0) now).allowed = false) := by
    simp [hallow]
  simp only [reserveCreditsInternal]
  rw [if_neg h1, if_neg h2, if_pos hnet]

/-- Number of `reservation` entries for a generationId. -/
def resCount (generationId sid : String) (ledger : List LedgerEntry) : Nat :=
  ((entriesFor generationId sid ledger).filter (fun e => e.reason == "reservation")).length

/-- Number of `generation` (settlement) entries for a generationId. -/
def genCount (generationId sid : String) (ledger : List LedgerEntry) : Nat :=
  ((entriesFor generationId sid ledger).filter (fun e => e.reason == "generation")).length

/-- Number of `refund` entries for a generationId. -/
def refCount (generationId sid : String) (ledger : List LedgerEntry) : Nat :=
  ((entriesFor generationId sid ledger).filter (fun e => e.reason == "refund")).length

/-- C4 (amended): Reserve is retry-idempotent provided the retry also
passes the daily-spend gate, which runs BEFORE the idempotency lookup —
for a standard-tier account within its window whose
`dailySpend + 2·cost ≤ limit`, and a fresh generationId with positive
amount, the first call succeeds and the second identical call returns
success with `alreadyReserved` and the same `newBalance`, mutating
nothing: one reservation entry and one balance debit in total.  (Without
the spend headroom the retry is rejected by the gate — see the
counterexample.) -/
theorem reserve_retry_idempotent (db : DB) (amount c spend lim : ℚ)
    (modelId generationId : String) (r now : Nat)
    (htier : db.session.tier ≠ "admin")
    (hspendv : db.session.dailySpendUsd = some spend)
    (hlim : db.session.dailySpendLimitUsd = some lim)
    (hreset : db.session.lastDayReset = some r)
    (hr : getUtcDayStart now ≤ r)
    (hc : 0 ≤ c) (hfits : spend + c + c ≤ lim)
    (hfresh : entriesFor generationId db.session.sid db.ledger = [])
    (hpos : 0 < amount) (hsuff : amount ≤ db.session.credits) :
    (reserveCreditsInternal db db.session.sid amount modelId generationId (some c) now).1 =
      .ok (db.session.credits - amount) ∧
    reserveCreditsInternal
        (reserveCreditsInternal db db.session.sid amount modelId generationId (some c) now).2
        db.session.sid amount modelId generationId (some c) now =
      (.alreadyReserved (db.session.credits - amount),
       (reserveCreditsInternal db db.session.sid amount modelId generationId (some c) now).2) ∧
    resCount generationId db.session.sid
      (reserveCreditsInternal db db.session.sid amount modelId generationId
        (some c) now).2.ledger = 1 ∧
    (reserveCreditsInternal db db.session.sid amount modelId generationId
      (some c) now).2.session.credits = db.session.credits - amount := by
  have hnr : ¬ (r < getUtcDayStart now) := Nat.not_lt.mpr hr
  have hcheck1 : checkDailySpendLimit db.session c now =
      { allowed := true, currentSpend := spend, limit := some lim,
        resetNeeded := false, remaining := none } := by
    rw [checkDailySpendLimit, if_neg htier]
    simp only [hspendv, hlim, hreset, Option.getD_some, decide_eq_false hnr,
      Bool.false_eq_true, if_false]
    rw [if_neg (by push_neg; linarith)]
  have hres := reserve_fresh_ok db amount modelId generationId (some c) now
    (by simp only [Option.getD_some]; rw [hcheck1]) hfresh hsuff
  have hr1 : (reserveCreditsInternal db db.session.sid amount modelId generationId
      (some c) now).1 = .ok (db.session.credits - amount) := by rw [hres]
  have hsid : db.session.sid =
      (reserveCreditsInternal db db.session.sid amount modelId generationId
        (some c) now).2.session.sid := by rw [hres]
  have hcred : (reserveCreditsInternal db db.session.sid amount modelId generationId
      (some c) now).2.session.credits = db.session.credits - amount := by rw [hres]
  have hled : (reserveCreditsInternal db db.session.sid amount modelId generationId
      (some c) now).2.ledger = db.ledger ++
      [{ sid := db.session.sid, delta := -amount, reason := "reservation",
         modelId := some modelId, costUsd := some c,
         generationId := some generationId, createdAt := now }] := by
    rw [hres]
  have hE1 : entriesFor generationId db.session.sid
      (reserveCreditsInternal db db.session.sid amount modelId generationId
        (some c) now).2.ledger =
      [{ sid := db.session.sid, delta := -amount, reason := "reservation",
         modelId := some modelId, costUsd := some c,
         generationId := some generationId, createdAt := now }] := by
    rw [hled, entriesFor_append, hfresh]
    simp [entriesFor]
  have htier1 : (reserveCreditsInternal db db.session.sid amount modelId generationId
      (some c) now).2.session.tier = "paid" := by
    rw [hres]
    simp [resolveTier, htier]
  have hspendv1 : (reserveCreditsInternal db db.session.sid amount modelId generationId
      (some c) now).2.session.dailySpendUsd = some (spend + c) := by
    rw [hres]
    simp only [Option.getD_some]
    simp [hcheck1, hspendv]
  have hreset1 : (reserveCreditsInternal db db.session.sid amount modelId generationId
      (some c) now).2.session.lastDayReset = some r := by
    rw [hres]
    simp only [Option.getD_some]
    simp [hcheck1, hreset]
  have hlim1 : (reserveCreditsInternal db db.session.sid amount modelId generationId
      (some c) now).2.session.dailySpendLimitUsd = some lim := by
    rw [hres]
    exact hlim
  have hcheck2 : checkDailySpendLimit
      (reserveCreditsInternal db db.session.sid amount modelId generationId
        (some c) now).2.session c now =
      { allowed := true, currentSpend := spend + c, limit := some lim,
        resetNeeded := false, remaining := none } := by
    rw [checkDailySpendLimit, if_neg (by rw [htier1]; simp)]
    simp only [hspendv1, hlim1, hreset1, Option.getD_some, decide_eq_false hnr,
      Bool.false_eq_true, if_false]
    rw [if_neg (by push_neg; linarith)]
  have hnet1 : netDeltaOf (entriesFor generationId db.session.sid
      (reserveCreditsInternal db db.session.sid amount modelId generationId
        (some c) now).2.ledger) < 0 := by
    rw [hE1]
    simp [netDeltaOf]
    linarith
  have hsecond := reserve_already
    (reserveCreditsInternal db db.session.sid amount modelId generationId (some c) now).2
    db.session.sid amount modelId generationId (some c) now hsid
    (by simp only [Option.getD_some]; rw [hcheck2]) hnet1
  refine ⟨hr1, ?_, ?_, hcred⟩
  · rw [hsecond, hcred]
  · rw [resCount, hE1]
    rfl

/-- Witness for C3: balance 100, reserve 5, settle with actual 7 (the
`B > A` case) → balance 93. -/
theorem reserve_settle_roundtrip_witness :
    (reserveCreditsInternal (baseDB 100) "s" 5 "m" "g" none 0).1 = .ok (100 - 5) ∧
    ((deductCreditsInternal (reserveCreditsInternal (baseDB 100) "s" 5 "m" "g" none 0).2
        "s" 5 "m" "g" none (some 7) none 0).1).newBalanceOf = some (100 - 7) ∧
    ((deductCreditsInternal (reserveCreditsInternal (baseDB 100) "s" 5 "m" "g" none 0).2
        "s" 5 "m" "g" none (some 7) none 0).1).isConverted = true ∧
    (deductCreditsInternal (reserveCreditsInternal (baseDB 100) "s" 5 "m" "g" none 0).2
        "s" 5 "m" "g" none (some 7) none 0).2.session.credits = 100 - 7 :=
  reserve_settle_roundtrip (baseDB 100) 5 7 "m" "g" 0
    (by simp [baseDB, baseSession, checkDailySpendLimit, getUtcDayStart,
      DEFAULT_DAILY_SPEND_LIMIT_USD, String.reduceEq]; norm_num)
    rfl (by norm_num) (by norm_num [baseDB, baseSession])
    (fun _ => by norm_num [baseDB, baseSession])

/-- Witness for C6: the spec's numbers — balance 10, reserve 10, settle
with actual 15 → balance 0, shortfall 5, only the reserved 10 charged. -/
theorem shortfall_boundary_witness :
    (reserveCreditsInternal (baseDB 10) "s" 10 "m" "g" none 0).1 = .ok 0 ∧
    (deductCreditsInternal (reserveCreditsInternal (baseDB 10) "s" 10 "m" "g" none 0).2
        "s" 10 "m" "g" none (some 15) none 0).1 = .convertedShortfall 0 (15 - 10) ∧
    (deductCreditsInternal (reserveCreditsInternal (baseDB 10) "s" 10 "m" "g" none 0).2
        "s" 10 "m" "g" none (some 15) none 0).2.session.credits = 0 ∧
    (deductCreditsInternal (reserveCreditsInternal (baseDB 10) "s" 10 "m" "g" none 0).2
        "s" 10 "m" "g" none (some 15) none 0).2.ledger =
      (baseDB 10).ledger ++
      [{ sid := "s", delta := -10, reason := "reservation", modelId := some "m",
         costUsd := none, generationId := some "g", createdAt := 0 },
       { sid := "s", delta := -10, reason := "generation", modelId := some "m",
         costUsd := some 0, generationId := some "g", createdAt := 0 },
       { sid := "s", delta := 10, reason := "refund", modelId := none,
         costUsd := none, generationId := some "g", createdAt := 0 }] :=
  shortfall_boundary (baseDB 10) 10 15 "m" "g" 0
    (by simp [baseDB, baseSession, checkDailySpendLimit, getUtcDayStart,
      DEFAULT_DAILY_SPEND_LIMIT_USD, String.reduceEq]; norm_num)
    rfl rfl (by norm_num) (by norm_num)

/-- The paid-tier session of the C4 counterexample: balance 100, daily
limit 5, nothing spent yet today. -/
def retrySession : Session :=
  { sid := "s", tier := "paid", credits := 100, dailySpendUsd := some 0,
    dailySpendLimitUsd := some 5, lastDayReset := some 0 }

/-- Store holding `retrySession` and an empty ledger. -/
def retryStore : DB :=
  { session := retrySession, ledger := [] }

/-- C4 counterexample: the daily-spend gate runs BEFORE the idempotency
lookup, so a retry of `reserveCredits(amount 5, costUsd 3)` on a limit-5
account is rejected with `DailyLimitExceeded` (the first call booked cost
3, the retry would make 6 > 5) instead of returning success with
`alreadyReserved`. -/
theorem reserve_retry_hits_daily_gate :
    (reserveCreditsInternal retryStore "s" 5 "m" "g" (some 3) 0).1 = .ok 95 ∧
    (reserveCreditsInternal (reserveCreditsInternal retryStore "s" 5 "m" "g" (some 3) 0).2
        "s" 5 "m" "g" (some 3) 0).1 = .dailyLimitExceeded (some 5) 3 (some 2) := by
  have hcheck1 : checkDailySpendLimit retryStore.session ((some (3:ℚ)).getD 0) 0 =
      { allowed := true, currentSpend := 0, limit := some 5,
        resetNeeded := false, remaining := none } := by
    rw [checkDailySpendLimit,
      if_neg (by simp [retryStore, retrySession, String.reduceEq])]
    norm_num [retryStore, retrySession, getUtcDayStart]
  have hres : reserveCreditsInternal retryStore "s" 5 "m" "g" (some 3) 0 =
      (.ok (retryStore.session.credits - 5),
       { session :=
           { retryStore.session with
               credits := retryStore.session.credits - 5
               tier := resolveTier retryStore.session.tier
               dailySpendUsd := some
                 (if (checkDailySpendLimit retryStore.session ((some (3:ℚ)).getD 0) 0).resetNeeded
                  then (some (3:ℚ)).getD 0
                  else retryStore.session.dailySpendUsd.getD 0 + (some (3:ℚ)).getD 0)
               lastDayReset :=
                 if (checkDailySpendLimit retryStore.session ((some (3:ℚ)).getD 0) 0).resetNeeded
                 then some (getUtcDayStart 0)
                 else retryStore.session.lastDayReset },
         ledger := retryStore.ledger ++
           [{ sid := retryStore.session.sid, delta := -5, reason := "reservation",
              modelId := some "m", costUsd := some 3,
              generationId := some "g", createdAt := 0 }] }) :=
    reserve_fresh_ok retryStore 5 "m" "g" (some 3) 0 (by rw [hcheck1]) rfl
      (by norm_num [retryStore, retrySession])
  constructor
  · rw [congrArg Prod.fst hres]
    norm_num [retryStore, retrySession]
  · have hsecond := reserve_gate_reject
      (reserveCreditsInternal retryStore "s" 5 "m" "g" (some 3) 0).2
      "s" 5 "m" "g" 3 3 5 0 0
      (by rw [hres]; rfl)
      (by rw [hres]; simp [retryStore, retrySession, resolveTier, String.reduceEq])
      (by rw [hres, hcheck1]; norm_num [retryStore, retrySession])
      (by rw [hres]; rfl)
      (by rw [hres, hcheck1]; norm_num [retryStore, retrySession])
      (by norm_num [getUtcDayStart])
      (by norm_num)
    rw [congrArg Prod.fst hsecond]
    norm_num

/-- Witness for C4's amended theorem: same account but with `costUsd = 0`,
so the retry passes the gate — first call `ok 95`, retry `alreadyReserved
95`, one reservation entry, one debit. -/
theorem reserve_retry_idempotent_witness :
    (reserveCreditsInternal retryStore "s" 5 "m" "g" (some 0) 0).1 = .ok (100 - 5) ∧
    reserveCreditsInternal (reserveCreditsInternal retryStore "s" 5 "m" "g" (some 0) 0).2
        "s" 5 "m" "g" (some 0) 0 =
      (.alreadyReserved (100 - 5),
       (reserveCreditsInternal retryStore "s" 5 "m" "g" (some 0) 0).2) ∧
    resCount "g" "s" (reserveCreditsInternal retryStore "s" 5 "m" "g" (some 0) 0).2.ledger = 1 ∧
    (reserveCreditsInternal retryStore "s" 5 "m" "g" (some 0) 0).2.session.credits = 100 - 5 :=
  reserve_retry_idempotent retryStore 5 0 0 5 "m" "g" 0 0
    (by simp [retryStore, retrySession]) rfl rfl rfl
    (by norm_num [getUtcDayStart]) le_rfl (by norm_num) rfl (by norm_num)
    (by norm_num [retryStore, retrySession])

/-! ### C9: ledger entry multiplicity -/

/-- The discipline under which C9's multiplicity bound holds: no release
calls, and positive reserve amounts / settle charge amounts. -/
def OpOK : Op → Prop
  | .reserve _ amount _ _ _ _ => 0 < amount
  | .deduct _ amount _ _ _ actualAmount _ _ => 0 < actualAmount.getD amount
  | .release _ _ _ => False
  | .addCredits _ _ _ _ => True

/-- The index query on a one-entry ledger. -/
theorem entriesFor_singleton (g s : String) (e : LedgerEntry) :
    entriesFor g s [e] =
      if e.generationId == some g && e.sid == s then [e] else [] := by
  simp [entriesFor, List.filter_singleton]

/-- Appending an entry for another generationId or session leaves the
index query unchanged. -/
theorem entriesFor_append_entry_ne (g s : String) (l : List LedgerEntry)
    (e : LedgerEntry) (h : ¬ (e.generationId = some g ∧ e.sid = s)) :
    entriesFor g s (l ++ [e]) = entriesFor g s l := by
  rw [entriesFor_append, entriesFor_singleton,
    if_neg (by simp only [Bool.and_eq_true, beq_iff_eq]; exact h), List.append_nil]

/-- Appending a matching entry appends it to the index query result. -/
theorem entriesFor_append_entry_eq (g s : String) (l : List LedgerEntry)
    (e : LedgerEntry) (h1 : e.generationId = some g) (h2 : e.sid = s) :
    entriesFor g s (l ++ [e]) = entriesFor g s l ++ [e] := by
  rw [entriesFor_append, entriesFor_singleton, if_pos (by simp [h1, h2])]

/-- The per-generationId ledger invariant maintained by reserve, settle and
grant under the `OpOK` discipline. -/
structure GidInv (g s : String) (l : List LedgerEntry) : Prop where
  reasons : ∀ e ∈ entriesFor g s l,
    e.reason = "reservation" ∨ e.reason = "generation" ∨ e.reason = "refund"
  res_le : resCount g s l ≤ 1
  gen_le : genCount g s l ≤ 1
  ref_le : refCount g s l ≤ 1
  res_neg : ∀ e ∈ entriesFor g s l, e.reason = "reservation" → e.delta < 0
  gen_neg : ∀ e ∈ entriesFor g s l, e.reason = "generation" → e.delta < 0
  ref_of_gen : genCount g s l = 0 → refCount g s l = 0
  net_neg : entriesFor g s l = [] ∨ netDeltaOf (entriesFor g s l) < 0

/-- The invariant only depends on the generationId's filtered entries. -/
theorem GidInv.of_entriesFor_eq (g s : String) {l l' : List LedgerEntry}
    (h : entriesFor g s l' = entriesFor g s l) (hinv : GidInv g s l) :
    GidInv g s l' := by
  obtain ⟨h1, h2, h3, h4, h5, h6, h7, h8⟩ := hinv
  refine ⟨?_, ?_, ?_, ?_, ?_, ?_, ?_, ?_⟩ <;>
    simp only [resCount, genCount, refCount, h] <;> assumption

/-- The invariant holds for a generationId with no entries. -/
theorem gidInv_of_empty (g s : String) (l : List LedgerEntry)
    (hE : entriesFor g s l = []) : GidInv g s l := by
  refine ⟨?_, ?_, ?_, ?_, ?_, ?_, ?_, ?_⟩ <;>
    simp [resCount, genCount, refCount, hE]

/-- The invariant holds when the only entry is a reservation debit. -/
theorem gidInv_single_res_entry (g s : String) (l : List LedgerEntry)
    (e : LedgerEntry) (hE : entriesFor g s l = [e])
    (hre : e.reason = "reservation") (hd : e.delta < 0) : GidInv g s l := by
  refine ⟨?_, ?_, ?_, ?_, ?_, ?_, ?_, ?_⟩ <;>
    simp [resCount, genCount, refCount, hE, hre, netDeltaOf, hd]

/-- The invariant holds when the only entry is a settlement debit. -/
theorem gidInv_single_gen_entry (g s : String) (l : List LedgerEntry)
    (e : LedgerEntry) (hE : entriesFor g s l = [e])
    (hge : e.reason = "generation") (hd : e.delta < 0) : GidInv g s l := by
  refine ⟨?_, ?_, ?_, ?_, ?_, ?_, ?_, ?_⟩ <;>
    simp [resCount, genCount, refCount, hE, hge, netDeltaOf, hd]

/-- The invariant holds for a fully converted reservation: one
reservation, one generation, one refund cancelling the reservation. -/
theorem gidInv_res_gen_ref (g s : String) (l : List LedgerEntry)
    (e ge re : LedgerEntry) (hE : entriesFor g s l = [e, ge, re])
    (hre : e.reason = "reservation") (hd : e.delta < 0)
    (hge : ge.reason = "generation") (hgd : ge.delta < 0)
    (hrre : re.reason = "refund") (hrd : re.delta = -e.delta) : GidInv g s l := by
  refine ⟨?_, ?_, ?_, ?_, ?_, ?_, ?_, ?_⟩
  · simp [hE, hre, hge, hrre]
  · simp [resCount, hE, hre, hge, hrre]
  · simp [genCount, hE, hre, hge, hrre]
  · simp [refCount, hE, hre, hge, hrre]
  · simp [hE, hre, hge, hrre]
    exact hd
  · simp [hE, hre, hge, hrre]
    exact hgd
  · simp [genCount, refCount, hE, hre, hge, hrre]
  · right
    rw [hE]
    simp [netDeltaOf, hre, hge, hrre, hrd]
    linarith

/-- Under the invariant, a generationId with negative net delta, some
reservation entry and no generation entry has exactly one entry: its
outstanding reservation debit. -/
theorem gidInv_outstanding_single (g s : String) (l : List LedgerEntry)
    (hinv : GidInv g s l)
    (hres : (entriesFor g s l).any (fun e => e.reason == "reservation") = true)
    (hgen : (entriesFor g s l).any (fun e => e.reason == "generation") = false) :
    ∃ e, entriesFor g s l = [e] ∧ e.reason = "reservation" ∧ e.delta < 0 := by
  have hgen0 : genCount g s l = 0 := by
    simp only [genCount, List.length_eq_zero, List.filter_eq_nil_iff]
    intro a ha
    rw [List.any_eq_false] at hgen
    simpa using hgen a ha
  have href0 : refCount g s l = 0 := hinv.ref_of_gen hgen0
  have hallres : ∀ e ∈ entriesFor g s l, e.reason = "reservation" := by
    intro e he
    rcases hinv.reasons e he with h | h | h
    · exact h
    · exfalso
      rw [List.any_eq_false] at hgen
      exact absurd (by simp [h]) (hgen e he)
    · exfalso
      have hnil : (entriesFor g s l).filter (fun x => x.reason == "refund") = [] := by
        rw [← List.length_eq_zero]
        exact href0
      have := List.filter_eq_nil_iff.mp hnil e he
      simp [h] at this
  have hfilter : (entriesFor g s l).filter (fun e => e.reason == "reservation") =
      entriesFor g s l := by
    rw [List.filter_eq_self]
    intro a ha
    simp [hallres a ha]
  have hlen : (entriesFor g s l).length ≤ 1 := by
    have h := hinv.res_le
    rw [resCount, hfilter] at h
    exact h
  have hne : entriesFor g s l ≠ [] := by
    rw [List.any_eq_true] at hres
    obtain ⟨x, hx, _⟩ := hres
    exact List.ne_nil_of_mem hx
  have hone : (entriesFor g s l).length = 1 := by
    have := List.length_pos.mpr hne
    omega
  obtain ⟨e, hE⟩ := List.length_eq_one.mp hone
  refine ⟨e, hE, hallres e (by rw [hE]; simp), ?_⟩
  exact hinv.res_neg e (by rw [hE]; simp) (hallres e (by rw [hE]; simp))


/-- A reserve call either leaves the ledger unchanged or (when the net
delta was non-negative) appends exactly one reservation entry. -/
theorem reserve_ledger_cases (db : DB) (sid : String) (amount : ℚ)
    (modelId generationId : String) (costUsd : Option ℚ) (now : Nat) :
    (reserveCreditsInternal db sid amount modelId generationId costUsd now).2.ledger =
      db.ledger ∨
    (¬ netDeltaOf (entriesFor generationId sid db.ledger) < 0 ∧
     (reserveCreditsInternal db sid amount modelId generationId costUsd now).2.ledger =
       db.ledger ++
        [{ sid := sid, delta := -amount, reason := "reservation",
           modelId := some modelId, costUsd := costUsd,
           generationId := some generationId, createdAt := now }]) := by
  simp only [reserveCreditsInternal]
  split
  · exact Or.inl rfl
  · split
    · exact Or.inl rfl
    · split
      · exact Or.inl rfl
      · next hnet =>
        split
        · exact Or.inl rfl
        · exact Or.inr ⟨hnet, rfl⟩

/-- A settle call leaves the ledger unchanged, or converts an outstanding
reservation by appending one generation and one refund entry, or (direct
debit) appends one generation entry. -/
theorem deduct_ledger_cases (db : DB) (sid : String) (amount : ℚ)
    (modelId generationId : String)
    (costUsd actualAmount actualCostUsd : Option ℚ) (now : Nat) :
    (deductCreditsInternal db sid amount modelId generationId costUsd
      actualAmount actualCostUsd now).2.ledger = db.ledger ∨
    (netDeltaOf (entriesFor generationId sid db.ledger) < 0 ∧
     (entriesFor generationId sid db.ledger).any
       (fun e => e.reason == "reservation") = true ∧
     (entriesFor generationId sid db.ledger).any
       (fun e => e.reason == "generation") = false ∧
     ∃ gdelta : ℚ, ∃ gcost : Option ℚ,
       (gdelta = -(actualAmount.getD amount) ∨
        gdelta = -(sumAbsDelta ((entriesFor generationId sid db.ledger).filter
          (fun e => e.reason == "reservation")))) ∧
       (deductCreditsInternal db sid amount modelId generationId costUsd
         actualAmount actualCostUsd now).2.ledger = db.ledger ++
         [{ sid := sid, delta := gdelta, reason := "generation",
            modelId := some modelId, costUsd := gcost,
            generationId := some generationId, createdAt := now },
          { sid := sid, delta := sumAbsDelta ((entriesFor generationId sid db.ledger).filter
              (fun e => e.reason == "reservation")),
            reason := "refund", modelId := none, costUsd := none,
            generationId := some generationId, createdAt := now }]) ∨
    (¬ netDeltaOf (entriesFor generationId sid db.ledger) < 0 ∧
     (deductCreditsInternal db sid amount modelId generationId costUsd
       actualAmount actualCostUsd now).2.ledger = db.ledger ++
       [{ sid := sid, delta := -(actualAmount.getD amount), reason := "generation",
          modelId := some modelId,
          costUsd := match actualCostUsd with | some c => some c | none => costUsd,
          generationId := some generationId, createdAt := now }]) := by
  simp only [deductCreditsInternal]
  split
  · exact Or.inl rfl
  · split
    · next hnet =>
      split
      · next hrg =>
        rw [Bool.and_eq_true, Bool.not_eq_true'] at hrg
        obtain ⟨hres, hgen⟩ := hrg
        split
        · exact Or.inr (Or.inl ⟨hnet, hres, hgen, _, _, Or.inl rfl, rfl⟩)
        · split
          · split
            · exact Or.inr (Or.inl ⟨hnet, hres, hgen, _, _, Or.inr rfl, rfl⟩)
            · exact Or.inr (Or.inl ⟨hnet, hres, hgen, _, _, Or.inl rfl, rfl⟩)
          · exact Or.inr (Or.inl ⟨hnet, hres, hgen, _, _, Or.inl rfl, rfl⟩)
      · exact Or.inl rfl
    · next hnet =>
      split
      · exact Or.inl rfl
      · exact Or.inr (Or.inr ⟨hnet, rfl⟩)

/-- A grant either throws (ledger unchanged) or appends one entry with no
generationId. -/
theorem addCredits_ledger_cases (db : DB) (sid : String) (amount : ℚ)
    (grantReason : String) (now : Nat) :
    (match addCreditsInternal db sid amount grantReason now with
      | .ok (_, db') => db'
      | .error _ => db).ledger = db.ledger ∨
    (match addCreditsInternal db sid amount grantReason now with
      | .ok (_, db') => db'
      | .error _ => db).ledger = db.ledger ++
      [{ sid := sid, delta := amount, reason := grantReason, modelId := none,
         costUsd := none, generationId := none, createdAt := now }] := by
  by_cases hpos : 0 < amount
  · by_cases hsid : sid ≠ db.session.sid
    · simp [addCreditsInternal, validatePositiveAmount, hpos, hsid]
    · simp [addCreditsInternal, validatePositiveAmount, hpos, hsid]
  · simp [addCreditsInternal, validatePositiveAmount, hpos]


/-- reserve preserves the invariant when its amount is positive. -/
theorem gidInv_reserve (g s : String) (db : DB) (sid : String) (amount : ℚ)
    (modelId generationId : String) (costUsd : Option ℚ) (now : Nat)
    (hinv : GidInv g s db.ledger) (hpos : 0 < amount) :
    GidInv g s
      (reserveCreditsInternal db sid amount modelId generationId costUsd now).2.ledger := by
  rcases reserve_ledger_cases db sid amount modelId generationId costUsd now with
    h | ⟨hnet, hled⟩
  · exact GidInv.of_entriesFor_eq g s (by rw [h]) hinv
  · by_cases hm : generationId = g ∧ sid = s
    · obtain ⟨hg, hs⟩ := hm
      subst hg
      subst hs
      have hE : entriesFor generationId sid db.ledger = [] := by
        rcases hinv.net_neg with h | h
        · exact h
        · exact absurd h hnet
      refine gidInv_single_res_entry generationId sid _
        { sid := sid, delta := -amount, reason := "reservation",
          modelId := some modelId, costUsd := costUsd,
          generationId := some generationId, createdAt := now }
        ?_ rfl (by simpa using hpos)
      rw [hled, entriesFor_append_entry_eq generationId sid db.ledger _ rfl rfl, hE,
        List.nil_append]
    · refine GidInv.of_entriesFor_eq g s ?_ hinv
      rw [hled, entriesFor_append_entry_ne g s db.ledger _ (by simpa using hm)]

/-- settle preserves the invariant when its charge amount is positive. -/
theorem gidInv_deduct (g s : String) (db : DB) (sid : String) (amount : ℚ)
    (modelId generationId : String)
    (costUsd actualAmount actualCostUsd : Option ℚ) (now : Nat)
    (hinv : GidInv g s db.ledger) (hpos : 0 < actualAmount.getD amount) :
    GidInv g s (deductCreditsInternal db sid amount modelId generationId costUsd
      actualAmount actualCostUsd now).2.ledger := by
  rcases deduct_ledger_cases db sid amount modelId generationId costUsd
      actualAmount actualCostUsd now with
    h | ⟨hnet, hres, hgen, gdelta, gcost, hgd, hled⟩ | ⟨hnet, hled⟩
  · exact GidInv.of_entriesFor_eq g s (by rw [h]) hinv
  · by_cases hm : generationId = g ∧ sid = s
    · obtain ⟨hg, hs⟩ := hm
      subst hg
      subst hs
      obtain ⟨e, hE, hre, hd⟩ := gidInv_outstanding_single generationId sid _ hinv hres hgen
      have hsum : sumAbsDelta ((entriesFor generationId sid db.ledger).filter
          (fun e => e.reason == "reservation")) = -e.delta := by
        rw [hE]
        simp [sumAbsDelta, hre, abs_of_neg hd]
      have hsplit : db.ledger ++
          [{ sid := sid, delta := gdelta, reason := "generation",
             modelId := some modelId, costUsd := gcost,
             generationId := some generationId, createdAt := now },
           { sid := sid, delta := sumAbsDelta ((entriesFor generationId sid db.ledger).filter
               (fun e => e.reason == "reservation")),
             reason := "refund", modelId := none, costUsd := none,
             generationId := some generationId, createdAt := now }] =
          (db.ledger ++
            [{ sid := sid, delta := gdelta, reason := "generation",
               modelId := some modelId, costUsd := gcost,
               generationId := some generationId, createdAt := now }]) ++
            [{ sid := sid, delta := sumAbsDelta ((entriesFor generationId sid db.ledger).filter
                 (fun e => e.reason == "reservation")),
               reason := "refund", modelId := none, costUsd := none,
               generationId := some generationId, createdAt := now }] := by
        simp
      have hE' : entriesFor generationId sid (deductCreditsInternal db sid amount modelId
          generationId costUsd actualAmount actualCostUsd now).2.ledger =
          [e,
           { sid := sid, delta := gdelta, reason := "generation",
             modelId := some modelId, costUsd := gcost,
             generationId := some generationId, createdAt := now },
           { sid := sid, delta := sumAbsDelta ((entriesFor generationId sid db.ledger).filter
               (fun e => e.reason == "reservation")),
             reason := "refund", modelId := none, costUsd := none,
             generationId := some generationId, createdAt := now }] := by
        rw [hled, hsplit, entriesFor_append_entry_eq generationId sid _ _ rfl rfl,
          entriesFor_append_entry_eq generationId sid _ _ rfl rfl, hE]
        rfl
      have hgdneg : gdelta < 0 := by
        rcases hgd with h | h
        · rw [h]
          simpa using hpos
        · rw [h, hsum]
          simpa using hd
      refine gidInv_res_gen_ref generationId sid _ e _ _ hE' hre hd rfl hgdneg rfl ?_
      simpa using hsum
    · refine GidInv.of_entriesFor_eq g s ?_ hinv
      rw [hled,
        show db.ledger ++
            [{ sid := sid, delta := gdelta, reason := "generation",
               modelId := some modelId, costUsd := gcost,
               generationId := some generationId, createdAt := now },
             { sid := sid, delta := sumAbsDelta ((entriesFor generationId sid db.ledger).filter
                 (fun e => e.reason == "reservation")),
               reason := "refund", modelId := none, costUsd := none,
               generationId := some generationId, createdAt := now }] =
          (db.ledger ++
            [{ sid := sid, delta := gdelta, reason := "generation",
               modelId := some modelId, costUsd := gcost,
               generationId := some generationId, createdAt := now }]) ++
            [{ sid := sid, delta := sumAbsDelta ((entriesFor generationId sid db.ledger).filter
                 (fun e => e.reason == "reservation")),
               reason := "refund", modelId := none, costUsd := none,
               generationId := some generationId, createdAt := now }] from by simp,
        entriesFor_append_entry_ne g s _ _ (by simpa using hm),
        entriesFor_append_entry_ne g s _ _ (by simpa using hm)]
  · by_cases hm : generationId = g ∧ sid = s
    · obtain ⟨hg, hs⟩ := hm
      subst hg
      subst hs
      have hE : entriesFor generationId sid db.ledger = [] := by
        rcases hinv.net_neg with h | h
        · exact h
        · exact absurd h hnet
      refine gidInv_single_gen_entry generationId sid _
        { sid := sid, delta := -(actualAmount.getD amount), reason := "generation",
          modelId := some modelId,
          costUsd := match actualCostUsd with | some c => some c | none => costUsd,
          generationId := some generationId, createdAt := now }
        ?_ rfl (by simpa using hpos)
      rw [hled, entriesFor_append_entry_eq generationId sid db.ledger _ rfl rfl, hE,
        List.nil_append]
      cases actualCostUsd <;> rfl
    · refine GidInv.of_entriesFor_eq g s ?_ hinv
      rw [hled, entriesFor_append_entry_ne g s db.ledger _ (by simpa using hm)]

/-- grant preserves the invariant. -/
theorem gidInv_addCredits (g s : String) (db : DB) (sid : String) (amount : ℚ)
    (grantReason : String) (now : Nat) (hinv : GidInv g s db.ledger) :
    GidInv g s
      (match addCreditsInternal db sid amount grantReason now with
        | .ok (_, db') => db'
        | .error _ => db).ledger := by
  rcases addCredits_ledger_cases db sid amount grantReason now with h | h
  · exact GidInv.of_entriesFor_eq g s (by rw [h]) hinv
  · refine GidInv.of_entriesFor_eq g s ?_ hinv
    rw [h, entriesFor_append_entry_ne g s db.ledger _ (by simp)]

/-- One `OpOK` Ledger Engine call preserves the invariant. -/
theorem gidInv_applyOp (g s : String) (db : DB) (op : Op)
    (hinv : GidInv g s db.ledger) (hok : OpOK op) :
    GidInv g s (applyOp db op).ledger := by
  cases op with
  | reserve sid amount modelId generationId costUsd now =>
    exact gidInv_reserve g s db sid amount modelId generationId costUsd now hinv hok
  | deduct sid amount modelId generationId costUsd actualAmount actualCostUsd now =>
    exact gidInv_deduct g s db sid amount modelId generationId costUsd
      actualAmount actualCostUsd now hinv hok
  | release sid generationId now => exact absurd hok (by simp [OpOK])
  | addCredits sid amount grantReason now =>
    exact gidInv_addCredits g s db sid amount grantReason now hinv

/-- A sequence of `OpOK` Ledger Engine calls preserves the invariant. -/
theorem gidInv_applyOps (g s : String) (db : DB) (ops : List Op)
    (hinv : GidInv g s db.ledger) (hops : ∀ op ∈ ops, OpOK op) :
    GidInv g s (applyOps db ops).ledger := by
  induction ops generalizing db with
  | nil => exact hinv
  | cons op ops ih =>
    exact ih (applyOp db op)
      (gidInv_applyOp g s db op hinv (hops op (List.mem_cons_self op ops)))
      (fun o ho => hops o (List.mem_cons_of_mem op ho))


/-- C9 (amended): Ledger entry multiplicity — for every generationId and
every finite sequence of reserveCredits / deductCredits / addCredits
calls with positive (charge) amounts and NO releaseReservation calls,
starting from a ledger without entries for that generationId, the ledger
never holds more than one reservation entry, more than one generation
(settlement) entry, or more than one refund entry for it.  With release
in the mix the bound fails (see the counterexample): release leaves the
reservation entry in place and its refund makes the net delta
non-negative again, so a later reserve appends a second reservation
entry. -/
theorem ledger_entry_multiplicity (g s : String) (db : DB) (ops : List Op)
    (hinit : entriesFor g s db.ledger = [])
    (hops : ∀ op ∈ ops, OpOK op) :
    resCount g s (applyOps db ops).ledger ≤ 1 ∧
    genCount g s (applyOps db ops).ledger ≤ 1 ∧
    refCount g s (applyOps db ops).ledger ≤ 1 := by
  have hinv := gidInv_applyOps g s db ops (gidInv_of_empty g s db.ledger hinit) hops
  exact ⟨hinv.res_le, hinv.gen_le, hinv.ref_le⟩

/-- Witness for C9's amended theorem: reserve 5 then settle 5 on a fresh
generationId — at most one entry of each kind. -/
theorem ledger_entry_multiplicity_witness :
    resCount "g" "s" (applyOps (baseDB 100)
      [.reserve "s" 5 "m" "g" none 0, .deduct "s" 5 "m" "g" none (some 5) none 0]).ledger ≤ 1 ∧
    genCount "g" "s" (applyOps (baseDB 100)
      [.reserve "s" 5 "m" "g" none 0, .deduct "s" 5 "m" "g" none (some 5) none 0]).ledger ≤ 1 ∧
    refCount "g" "s" (applyOps (baseDB 100)
      [.reserve "s" 5 "m" "g" none 0, .deduct "s" 5 "m" "g" none (some 5) none 0]).ledger ≤ 1 :=
  ledger_entry_multiplicity "g" "s" (baseDB 100)
    [.reserve "s" 5 "m" "g" none 0, .deduct "s" 5 "m" "g" none (some 5) none 0] rfl
    (by
      intro op hop
      simp only [List.mem_cons, List.not_mem_nil, or_false] at hop
      rcases hop with rfl | rfl
      · norm_num [OpOK]
      · norm_num [OpOK])

set_option maxHeartbeats 1600000 in
/-- C9 counterexample: from balance 100, the sequence reserve(g, 5);
release(g); reserve(g, 5) — an interleaving of Ledger Engine calls —
leaves TWO reservation entries for g, because the released reservation
entry still exists while its refund resets the net delta to zero, so the
second reserve passes the idempotency check and appends again. -/
theorem re_reserve_after_release_duplicates :
    resCount "g" "s" (applyOps (baseDB 100)
      [.reserve "s" 5 "m" "g" none 0, .release "s" "g" 0,
       .reserve "s" 5 "m" "g" none 0]).ledger = 2 := by
  repeat (first
    | rfl
    | (norm_num [resCount, applyOps, applyOp, baseDB, baseSession, reserveCreditsInternal,
        releaseReservationInternal, checkDailySpendLimit, DEFAULT_DAILY_SPEND_LIMIT_USD,
        getUtcDayStart, entriesFor, netDeltaOf, sumAbsDelta, sumCostUsd, resolveTier,
        List.filter, List.foldl, String.reduceEq])
    | (simp [resCount, applyOps, applyOp, baseDB, baseSession, reserveCreditsInternal,
        releaseReservationInternal, checkDailySpendLimit, DEFAULT_DAILY_SPEND_LIMIT_USD,
        getUtcDayStart, entriesFor, netDeltaOf, sumAbsDelta, sumCostUsd, resolveTier,
        List.filter, List.foldl, String.reduceEq]))

end Vibible
